import Mathlib

/-!
Shallow embedding of `dict2anki.go` (package main of 11Spades/dict2anki).

The program is a linear CLI script: load a JSON config, fetch a dictionary
definition over HTTP, decode the response as a JSON array of cards, check a
local AnkiConnect endpoint for a duplicate card, and add a two-field note.

External effects (file system, HTTP, the AnkiConnect client, `os.Args`) are
modelled as explicit parameters: a function's behaviour at each effect point
is an input, and the embedding records what the program prints, which search
queries it sends, and which notes it submits.  Go runtime panics (out-of-range
slice indexing) are modelled as an explicit `panicked` outcome, distinct from
an ordinary `error` return.
-/

/-- Config mirrors `type Config struct { APIKey string; DeckName string }`
with JSON tags `apiKey` and `deckName` (dict2anki.go lines 15-18). -/
structure Config where
  apiKey : String
  deckName : String
deriving DecidableEq, Repr

/-- Card mirrors `type Card struct { Word string; PartOfSpeech string; Definitions []string }`
with JSON tags `fl` and `shortdef` (dict2anki.go lines 20-24). -/
structure Card where
  word : String
  partOfSpeech : String
  definitions : List String
deriving DecidableEq, Repr

/-- Minimal JSON value tree, used to model the decoded content of the config
file handed to `encoding/json`'s `Decoder.Decode`. -/
inductive JValue where
  | jnull : JValue
  | jbool : Bool → JValue
  | jnum : Int → JValue
  | jstr : String → JValue
  | jarr : List JValue → JValue
  | jobj : List (String × JValue) → JValue

/-- Association-list lookup over the members of a JSON object, first match
wins on the given list. -/
def jLookup (k : String) : List (String × JValue) → Option JValue
  | [] => none
  | (k2, v) :: rest => if k2 == k then some v else jLookup k rest

/-- Models `encoding/json` decoding of one string-typed struct field tagged
`k`: a missing member leaves the Go zero value `""`, `null` is a no-op on a
string field, a member of any other non-string type is a decode error.
Later duplicate members overwrite earlier ones, hence the `reverse`. -/
def decodeStringField (kvs : List (String × JValue)) (k : String) : Except String String :=
  match jLookup k kvs.reverse with
  | none => Except.ok ""
  | some (JValue.jstr s) => Except.ok s
  | some JValue.jnull => Except.ok ""
  | some _ => Except.error ("json: cannot unmarshal value into Go struct field Config." ++ k)

/-- Models `encoding/json` decoding of a JSON value into `Config`
(fields `apiKey`, `deckName`): the value must be an object, and each field
decodes by `decodeStringField`. -/
def decodeConfig : JValue → Except String Config
  | JValue.jobj kvs => do
      let a ← decodeStringField kvs "apiKey"
      let d ← decodeStringField kvs "deckName"
      Except.ok { apiKey := a, deckName := d }
  | _ => Except.error "json: cannot unmarshal value into Go value of type main.Config"

/-- LoadConfig (dict2anki.go lines 39-60): determine the home directory,
open `home + "/.config/dict2anki/config.json"`, JSON-decode it into a Config.
`userHomeDir` models `os.UserHomeDir()`; `readFile` models `os.Open` composed
with reading and JSON-parsing the file: the outer `Except` is the open error,
the inner one the JSON syntax error. -/
def LoadConfig (userHomeDir : Except String String)
    (readFile : String → Except String (Except String JValue)) : Except String Config :=
  match userHomeDir with
  | Except.error e => Except.error e
  | Except.ok home =>
    match readFile (home ++ "/.config/dict2anki/config.json") with
    | Except.error e => Except.error e
    | Except.ok (Except.error e) => Except.error e
    | Except.ok (Except.ok j) => decodeConfig j

/-- Outcome of a Go function returning `(Card, error)`, extended with the
runtime panic that unchecked slice indexing can raise. -/
inductive FetchResult where
  | ok : Card → FetchResult
  | err : String → FetchResult
  | panicked : String → FetchResult
deriving DecidableEq, Repr

/-- True exactly on an ordinary Go error return (not a panic, not success). -/
def FetchResult.isErr : FetchResult → Bool
  | FetchResult.err _ => true
  | _ => false

/-- Lines printed via `println` together with the function's result. -/
structure FetchStep where
  printed : List String
  result : FetchResult
deriving DecidableEq, Repr

/-- parseResponse (dict2anki.go lines 62-78): read the whole response body,
unmarshal it as a JSON array of Cards, and return `cards[0]`.
`responseBody` models the outcome of `io.ReadAll(responseBody)`; `unmarshal`
models `json.Unmarshal` of the body bytes into `[]Card`.  When the decoded
slice is empty, `cards[0]` panics with Go's index-out-of-range runtime error
instead of returning an error. -/
def parseResponse (responseBody : Except String String)
    (unmarshal : String → Except String (List Card)) : FetchStep :=
  match responseBody with
  | Except.error e => { printed := ["Error: Failed to read response body."], result := FetchResult.err e }
  | Except.ok cardJson =>
    match unmarshal cardJson with
    | Except.error e =>
        { printed := ["Error: Failed to parse response body JSON."], result := FetchResult.err e }
    | Except.ok [] =>
        { printed := [], result := FetchResult.panicked "runtime error: index out of range [0] with length 0" }
    | Except.ok (c :: _) => { printed := [], result := FetchResult.ok c }

/-- requestDefinition (dict2anki.go lines 80-96): GET the collegiate API URL
built from the word and key, parse the response, then overwrite the parsed
card's Word with the input word.  `httpGet` models `http.Get`: the outer
`Except` is the transport error, the inner value the body as handed to
`parseResponse` (itself an `Except` for the body-read outcome). -/
def requestDefinition (word : String) (key : String)
    (httpGet : String → Except String (Except String String))
    (unmarshal : String → Except String (List Card)) : FetchStep :=
  match httpGet ("https://www.dictionaryapi.com/api/v3/references/collegiate/json/" ++ word ++ "?key=" ++ key) with
  | Except.error e =>
      { printed := ["Error: Failed to contact Merriam-Webster."], result := FetchResult.err e }
  | Except.ok body =>
    match parseResponse body unmarshal with
    | { printed := outs, result := FetchResult.err e } =>
        { printed := outs ++ ["Error: Failed to parse response"], result := FetchResult.err e }
    | { printed := outs, result := FetchResult.panicked m } =>
        { printed := outs, result := FetchResult.panicked m }
    | { printed := outs, result := FetchResult.ok card } =>
        { printed := outs, result := FetchResult.ok { card with word := word } }

/-- Element of the result slice of `client.Cards.Get` (ankiconnect's card
info); only its presence matters to this program, which tests `len(*cards)`. -/
structure ResultCardsInfo where
  cardId : Nat
deriving DecidableEq, Repr

/-- Note mirrors `ankiconnect.Note` as used here: deck name, model (note type)
name, and a field map with entries `Front` and `Back`, modelled as an
association list. -/
structure Note where
  deckName : String
  modelName : String
  fields : List (String × String)
deriving DecidableEq, Repr

/-- State of the AnkiConnect client: the behaviour of its two operations
(`Cards.Get`, `Notes.Add`) plus a log of every query sent and every note
submitted, so that theorems can observe what the program sent. -/
structure ClientState where
  cardsGetResult : String → Except String (List ResultCardsInfo)
  notesAddErr : Note → Option String
  queries : List String
  added : List Note

/-- Models `client.Cards.Get(query)`: records the query string sent to the
AnkiConnect endpoint and returns the endpoint's answer for it. -/
def CardsGet (st : ClientState) (query : String) : ClientState × Except String (List ResultCardsInfo) :=
  ({ st with queries := st.queries ++ [query] }, st.cardsGetResult query)

/-- Models `client.Notes.Add(note)`: records the note submitted to the
AnkiConnect endpoint and returns the endpoint's error, if any. -/
def NotesAdd (st : ClientState) (note : Note) : ClientState × Option String :=
  ({ st with added := st.added ++ [note] }, st.notesAddErr note)

/-- checkDeckForDuplicate (dict2anki.go lines 98-109): send the search
expression built by splicing deck and word between literal double quotes,
return a generic "AnkiConnect error." on failure, else whether the result
slice is non-empty. -/
def checkDeckForDuplicate (st : ClientState) (word : String) (deck : String) :
    ClientState × (Bool × Option String) :=
  let r := CardsGet st ("\"deck:" ++ deck ++ "\" \"front:" ++ word ++ "\"")
  match r.2 with
  | Except.error _ => (r.1, (false, some "AnkiConnect error."))
  | Except.ok cards =>
      if cards.length != 0 then (r.1, (true, none)) else (r.1, (false, none))

/-- ASCII model of upper-casing a character, as the leading letter of a word
under `cases.Title`. -/
def asciiUpper (c : Char) : Char :=
  if 'a' ≤ c ∧ c ≤ 'z' then Char.ofNat (c.toNat - 32) else c

/-- ASCII model of lower-casing a character, as a non-leading letter of a word
under `cases.Title`. -/
def asciiLower (c : Char) : Char :=
  if 'A' ≤ c ∧ c ≤ 'Z' then Char.ofNat (c.toNat + 32) else c

/-- Title-case a character sequence word by word: the character starting a
word is upper-cased, every later character of a word lower-cased; a space
ends the current word. -/
def titleCaseChars : List Char → Bool → List Char
  | [], _ => []
  | c :: cs, atStart =>
    if c = ' ' then c :: titleCaseChars cs true
    else (if atStart then asciiUpper c else asciiLower c) :: titleCaseChars cs false

/-- Models `cases.Title(language.AmericanEnglish).String` on ASCII input:
each space-separated word is title-cased. -/
def titleCase (s : String) : String :=
  String.mk (titleCaseChars s.data true)

/-- addCardToDeck (dict2anki.go lines 111-127): build the two-field note
(`Front` = title-cased word, `Back` = part of speech, two HTML line breaks,
then the definitions joined with single HTML line breaks) under model name
"Basic", submit it via `Notes.Add`, and wrap any error generically. -/
def addCardToDeck (st : ClientState) (card : Card) (deck : String) : ClientState × Option String :=
  let r := NotesAdd st
    { deckName := deck,
      modelName := "Basic",
      fields := [("Front", titleCase card.word),
                 ("Back", card.partOfSpeech ++ "<br><br>" ++ String.intercalate "<br>" card.definitions)] }
  match r.2 with
  | some _ => (r.1, some "Ankiconnect error")
  | none => (r.1, none)

/-- Text printed by printHelp (dict2anki.go lines 26-37), as one `println`. -/
def helpText : String :=
  "dict2anki is a tool for quickly creating Anki cards from words.\n\nUsage:\n\n        dict2anki <word>\n\nNote:\n\n\t\tThis tool requires a valid Merriam-Webster API key and a deck name specified in the config file located at \"~/.config/dict2anki/config.json\"\n\t\tAlso required is a running instance of Anki with AnkiConnect."

/-- How the process ends: `normal` is an ordinary return from `main` (the Go
runtime then exits with the default success status), `panicked` is a runtime
panic (the Go runtime prints a trace and exits with a failure status). -/
inductive MainResult where
  | normal : MainResult
  | panicked : String → MainResult
deriving DecidableEq, Repr

/-- Process exit status determined by how `main` ended: an ordinary return
exits 0; a runtime panic makes the Go runtime exit 2. -/
def exitStatus : MainResult → Nat
  | MainResult.normal => 0
  | MainResult.panicked _ => 2

/-- Environment of one run of `main`: `os.Args` (program name first), the
outcomes of the home-directory lookup and the config-file read, the
AnkiConnect ping error, the dictionary HTTP layer, the JSON unmarshaller, and
the AnkiConnect endpoint behaviour. -/
structure World where
  args : List String
  userHomeDir : Except String String
  readConfigFile : String → Except String (Except String JValue)
  pingErr : Option String
  httpGet : String → Except String (Except String String)
  unmarshal : String → Except String (List Card)
  cardsGetResult : String → Except String (List ResultCardsInfo)
  notesAddErr : Note → Option String

/-- Fresh AnkiConnect client for a world, with empty logs, as built by
`ankiconnect.NewClient()`. -/
def initialClient (w : World) : ClientState :=
  { cardsGetResult := w.cardsGetResult, notesAddErr := w.notesAddErr, queries := [], added := [] }

/-- Everything observable about one run of `main`: the `println` lines in
order, the queries sent to AnkiConnect, the notes submitted, and how the
process ended. -/
structure RunLog where
  printed : List String
  queries : List String
  added : List Note
  result : MainResult
deriving DecidableEq, Repr

/-- main (dict2anki.go lines 129-183): print help if `len(os.Args) == 0`;
load config (fatal on error); ping Anki (fatal on error); fetch the
definition for `os.Args[1]` (a panic when index 1 is absent, since the
argument check only caught a length of zero); print the card; check for a
duplicate (fatal on error); stop on duplicate; else add the note (fatal on
error) and print "Done.".  Every branch of `main` itself ends in an ordinary
`return`. -/
def mainModel (w : World) : RunLog :=
  if w.args.length == 0 then
    { printed := [helpText], queries := [], added := [], result := MainResult.normal }
  else
    match LoadConfig w.userHomeDir w.readConfigFile with
    | Except.error _ =>
        { printed := ["Fatal: Failed to open config file."], queries := [], added := [],
          result := MainResult.normal }
    | Except.ok config =>
      match w.pingErr with
      | some _ =>
          { printed := ["Fatal: Failed to connect to Anki. Is it running? Does it have AnkiConnect?"],
            queries := [], added := [], result := MainResult.normal }
      | none =>
        match w.args.get? 1 with
        | none =>
            { printed := [], queries := [], added := [],
              result := MainResult.panicked "runtime error: index out of range [1] with length 1" }
        | some word =>
          match requestDefinition word config.apiKey w.httpGet w.unmarshal with
          | { printed := outs, result := FetchResult.err _ } =>
              { printed := outs ++ ["Fatal: Failed to connect to Merriam-Webster and Wiktionary, or failed to parse response."],
                queries := [], added := [], result := MainResult.normal }
          | { printed := outs, result := FetchResult.panicked m } =>
              { printed := outs, queries := [], added := [], result := MainResult.panicked m }
          | { printed := outs, result := FetchResult.ok card } =>
            let pre := outs ++ [card.word, card.partOfSpeech, String.intercalate "\n" card.definitions]
            let r := checkDeckForDuplicate (initialClient w) card.word config.deckName
            match r.2.2 with
            | some _ =>
                { printed := pre ++ ["Fatal: Failed to query deck for duplicates."],
                  queries := r.1.queries, added := r.1.added, result := MainResult.normal }
            | none =>
              if r.2.1 then
                { printed := pre ++ ["Duplicate detected, omitting."],
                  queries := r.1.queries, added := r.1.added, result := MainResult.normal }
              else
                let a := addCardToDeck r.1 card config.deckName
                match a.2 with
                | some _ =>
                    { printed := pre ++ ["Fatal: Failed to add card to deck."],
                      queries := a.1.queries, added := a.1.added, result := MainResult.normal }
                | none =>
                    { printed := pre ++ ["Done."],
                      queries := a.1.queries, added := a.1.added, result := MainResult.normal }

/-! Helper lemmas about the client-state bookkeeping. -/

/-- checkDeckForDuplicate always records exactly one query, the spliced
search expression, whatever the endpoint answers. -/
theorem checkDeck_state (st : ClientState) (word deck : String) :
    (checkDeckForDuplicate st word deck).1 =
      { st with queries := st.queries ++ ["\"deck:" ++ deck ++ "\" \"front:" ++ word ++ "\""] } := by
  unfold checkDeckForDuplicate CardsGet
  dsimp only
  split
  · rfl
  · split <;> rfl

/-- addCardToDeck always submits exactly one note, the two-field note built
from the card and deck, whatever the endpoint answers. -/
theorem addCard_state (st : ClientState) (card : Card) (deck : String) :
    (addCardToDeck st card deck).1 =
      { st with added := st.added ++
          [{ deckName := deck,
             modelName := "Basic",
             fields := [("Front", titleCase card.word),
                        ("Back", card.partOfSpeech ++ "<br><br>" ++ String.intercalate "<br>" card.definitions)] }] } := by
  unfold addCardToDeck NotesAdd
  dsimp only
  split <;> rfl

/-! Concrete environments used by witnesses. -/

/-- Test double for `json.Unmarshal` into `[]Card`: recognises the well-formed
empty JSON array body and rejects everything else. -/
def unmarshalEmptyOnly : String → Except String (List Card) :=
  fun s => if s == "[]" then Except.ok [] else Except.error "invalid character"

/-- Body of a well-formed one-element dictionary response for "run". -/
def runVerbBody : String :=
  "[\x7b\"fl\":\"verb\",\"shortdef\":[\"to move fast\"]\x7d]"

/-- Test double for `json.Unmarshal` into `[]Card`: decodes `runVerbBody` to
one card (its `Word` left at the zero value, as the real response carries no
`word` member) and rejects everything else. -/
def unmarshalRunVerb : String → Except String (List Card) :=
  fun s => if s == runVerbBody
           then Except.ok [{ word := "", partOfSpeech := "verb", definitions := ["to move fast"] }]
           else Except.error "invalid character"

/-- Test double for `http.Get` whose response body always reads `runVerbBody`. -/
def httpGetRunVerb : String → Except String (Except String String) :=
  fun _ => Except.ok (Except.ok runVerbBody)

/-- Test double for `http.Get` that always fails at transport level. -/
def httpGetFail : String → Except String (Except String String) :=
  fun _ => Except.error "connection refused"

/-- C1: when the response body reads successfully and unmarshals to the empty
card slice (a well-formed but empty JSON array), parseResponse panics with
Go's index-out-of-range runtime error instead of returning an error, and the
whole fetch operation (requestDefinition) therefore also ends in that panic
rather than a clean error return. -/
theorem C1_empty_array_panics
    (responseBody : Except String String) (unmarshal : String → Except String (List Card))
    (body : String)
    (hr : responseBody = Except.ok body) (hu : unmarshal body = Except.ok []) :
    parseResponse responseBody unmarshal =
      { printed := [],
        result := FetchResult.panicked "runtime error: index out of range [0] with length 0" }
    ∧ (parseResponse responseBody unmarshal).result.isErr = false
    ∧ ∀ (word key : String) (httpGet : String → Except String (Except String String)),
        httpGet ("https://www.dictionaryapi.com/api/v3/references/collegiate/json/" ++ word ++ "?key=" ++ key) =
          Except.ok responseBody →
        (requestDefinition word key httpGet unmarshal).result =
          FetchResult.panicked "runtime error: index out of range [0] with length 0" := by
  subst hr
  refine ⟨by simp [parseResponse, hu], by simp [parseResponse, hu, FetchResult.isErr], ?_⟩
  intro word key httpGet hg
  simp [requestDefinition, hg, parseResponse, hu]

/-- Witness for C1 at the concrete body "[]". -/
theorem C1_empty_array_panics_witness :
    parseResponse (Except.ok "[]") unmarshalEmptyOnly =
      { printed := [],
        result := FetchResult.panicked "runtime error: index out of range [0] with length 0" }
    ∧ (requestDefinition "espresso" "K" (fun _ => Except.ok (Except.ok "[]")) unmarshalEmptyOnly).result =
        FetchResult.panicked "runtime error: index out of range [0] with length 0" :=
  ⟨(C1_empty_array_panics (Except.ok "[]") unmarshalEmptyOnly "[]" rfl rfl).1,
   (C1_empty_array_panics (Except.ok "[]") unmarshalEmptyOnly "[]" rfl rfl).2.2
     "espresso" "K" (fun _ => Except.ok (Except.ok "[]")) rfl⟩

/-- C2: for a response that reads successfully and unmarshals to a non-empty
card slice, requestDefinition returns the first element with its word field
overwritten by the input word (partOfSpeech and definitions coming from that
first element), whatever word the response itself carried. -/
theorem C2_word_from_input
    (word key body : String)
    (httpGet : String → Except String (Except String String))
    (unmarshal : String → Except String (List Card))
    (c : Card) (cs : List Card)
    (hg : httpGet ("https://www.dictionaryapi.com/api/v3/references/collegiate/json/" ++ word ++ "?key=" ++ key) =
            Except.ok (Except.ok body))
    (hu : unmarshal body = Except.ok (c :: cs)) :
    requestDefinition word key httpGet unmarshal =
      { printed := [],
        result := FetchResult.ok { word := word, partOfSpeech := c.partOfSpeech, definitions := c.definitions } } := by
  simp [requestDefinition, hg, parseResponse, hu]

/-- Witness for C2: the decoded card carries the zero-value word, yet the
returned card's word is the input "run". -/
theorem C2_word_from_input_witness :
    requestDefinition "run" "K" httpGetRunVerb unmarshalRunVerb =
      { printed := [],
        result := FetchResult.ok { word := "run", partOfSpeech := "verb", definitions := ["to move fast"] } } :=
  C2_word_from_input "run" "K" runVerbBody httpGetRunVerb unmarshalRunVerb
    { word := "", partOfSpeech := "verb", definitions := ["to move fast"] } [] rfl rfl

/-- Idle AnkiConnect endpoint behaviour used by concrete examples: searches
find nothing and note adds succeed. -/
def idleClient : ClientState :=
  { cardsGetResult := fun _ => Except.ok [], notesAddErr := fun _ => none,
    queries := [], added := [] }

/-- C3: the note addCardToDeck submits has exactly the two fields Front
(title-cased word) and Back (part of speech, "<br><br>", then the definitions
joined with "<br>"), under model name "Basic" in the given deck; at word
"run", part of speech "verb", definitions ["to move fast"] and deck "English"
this is Front="Run", Back="verb<br><br>to move fast". -/
theorem C3_note_two_fields (st : ClientState) (card : Card) (deck : String) :
    ((addCardToDeck st card deck).1.added =
      st.added ++
        [{ deckName := deck,
           modelName := "Basic",
           fields := [("Front", titleCase card.word),
                      ("Back", card.partOfSpeech ++ "<br><br>" ++ String.intercalate "<br>" card.definitions)] }])
    ∧ (addCardToDeck idleClient
          { word := "run", partOfSpeech := "verb", definitions := ["to move fast"] } "English").1.added =
        [{ deckName := "English",
           modelName := "Basic",
           fields := [("Front", "Run"), ("Back", "verb<br><br>to move fast")] }] := by
  refine ⟨?_, by decide⟩
  rw [addCard_state]

/-- C4: when the endpoint's search succeeds, checkDeckForDuplicate returns
true with no error exactly for a non-empty result slice and false with no
error exactly for an empty one; when the search fails it returns false
together with the generic "AnkiConnect error.". -/
theorem C4_duplicate_iff_nonempty (st : ClientState) (word deck : String) :
    (∀ e, st.cardsGetResult ("\"deck:" ++ deck ++ "\" \"front:" ++ word ++ "\"") = Except.error e →
        (checkDeckForDuplicate st word deck).2 = (false, some "AnkiConnect error."))
    ∧ (∀ rcs : List ResultCardsInfo,
        st.cardsGetResult ("\"deck:" ++ deck ++ "\" \"front:" ++ word ++ "\"") = Except.ok rcs →
          ((checkDeckForDuplicate st word deck).2 = (true, none) ↔ rcs ≠ [])
        ∧ ((checkDeckForDuplicate st word deck).2 = (false, none) ↔ rcs = [])) := by
  constructor
  · intro e he
    simp [checkDeckForDuplicate, CardsGet, he]
  · intro rcs hok
    cases rcs <;> simp [checkDeckForDuplicate, CardsGet, hok]

/-- Witness for C4 at a failing endpoint, a one-card answer and an empty
answer. -/
theorem C4_duplicate_iff_nonempty_witness :
    (checkDeckForDuplicate
        { idleClient with cardsGetResult := fun _ => Except.error "rest error" } "run" "English").2 =
      (false, some "AnkiConnect error.")
    ∧ (checkDeckForDuplicate
        { idleClient with cardsGetResult := fun _ => Except.ok [{ cardId := 1 }] } "run" "English").2 =
      (true, none)
    ∧ (checkDeckForDuplicate idleClient "run" "English").2 = (false, none) :=
  ⟨(C4_duplicate_iff_nonempty
      { idleClient with cardsGetResult := fun _ => Except.error "rest error" } "run" "English").1
      "rest error" rfl,
   (((C4_duplicate_iff_nonempty
      { idleClient with cardsGetResult := fun _ => Except.ok [{ cardId := 1 }] } "run" "English").2
      [{ cardId := 1 }] rfl).1).mpr (by decide),
   (((C4_duplicate_iff_nonempty idleClient "run" "English").2 [] rfl).2).mpr rfl⟩

/-- C10: the search expression checkDeckForDuplicate sends is exactly the
deck name and word spliced verbatim between literal double-quote characters,
with no escaping; a deck name containing a double quote therefore yields a
query with an odd number of quote characters, changing its structure. -/
theorem C10_query_spliced_verbatim (st : ClientState) (word deck : String) :
    ((checkDeckForDuplicate st word deck).1.queries =
      st.queries ++ ["\"deck:" ++ deck ++ "\" \"front:" ++ word ++ "\""])
    ∧ ("\"deck:" ++ "En\" x" ++ "\" \"front:" ++ "run" ++ "\"") = "\"deck:En\" x\" \"front:run\""
    ∧ (("\"deck:En\" x\" \"front:run\"").data.filter (fun c => c == '"')).length = 5 := by
  refine ⟨?_, by decide, by decide⟩
  rw [checkDeck_state]

/-- C7: a config file that is valid JSON (an object) but lacks the apiKey or
deckName member loads successfully, with the Go zero value "" in the missing
field and no default applied. -/
theorem C7_missing_field_empty_string
    (home : String) (readFile : String → Except String (Except String JValue))
    (kvs : List (String × JValue)) (a d : String)
    (hf : readFile (home ++ "/.config/dict2anki/config.json") =
            Except.ok (Except.ok (JValue.jobj kvs))) :
    (jLookup "apiKey" kvs.reverse = none → jLookup "deckName" kvs.reverse = some (JValue.jstr d) →
        LoadConfig (Except.ok home) readFile = Except.ok { apiKey := "", deckName := d })
    ∧ (jLookup "apiKey" kvs.reverse = some (JValue.jstr a) → jLookup "deckName" kvs.reverse = none →
        LoadConfig (Except.ok home) readFile = Except.ok { apiKey := a, deckName := "" })
    ∧ (jLookup "apiKey" kvs.reverse = none → jLookup "deckName" kvs.reverse = none →
        LoadConfig (Except.ok home) readFile = Except.ok { apiKey := "", deckName := "" }) := by
  refine ⟨?_, ?_, ?_⟩ <;> intro h1 h2 <;>
    simp [LoadConfig, hf, decodeConfig, decodeStringField, h1, h2, Except.bind] <;> rfl

/-- Config file content with only a deckName member. -/
def cfgOnlyDeckName : String → Except String (Except String JValue) :=
  fun _ => Except.ok (Except.ok (JValue.jobj [("deckName", JValue.jstr "English")]))

/-- Witness for C7: a config object carrying only deckName loads as
`{ apiKey := "", deckName := "English" }`. -/
theorem C7_missing_field_empty_string_witness :
    LoadConfig (Except.ok "/home/user") cfgOnlyDeckName =
      Except.ok { apiKey := "", deckName := "English" } :=
  (C7_missing_field_empty_string "/home/user" cfgOnlyDeckName
      [("deckName", JValue.jstr "English")] "x" "English" rfl).1 rfl rfl

/-- C8: requestDefinition returns an error exactly when the GET, the body
read, or the JSON decode fails; each failing stage returns a single error
value after printing that stage's own diagnostic line (the three diagnostics
being pairwise distinct), and a run in which all three stages succeed with a
non-empty array returns no error. -/
theorem C8_error_exactly_on_stage_failure
    (word key : String)
    (httpGet : String → Except String (Except String String))
    (unmarshal : String → Except String (List Card)) :
    (∀ e, httpGet ("https://www.dictionaryapi.com/api/v3/references/collegiate/json/" ++ word ++ "?key=" ++ key) =
            Except.error e →
        requestDefinition word key httpGet unmarshal =
          { printed := ["Error: Failed to contact Merriam-Webster."], result := FetchResult.err e })
    ∧ (∀ e, httpGet ("https://www.dictionaryapi.com/api/v3/references/collegiate/json/" ++ word ++ "?key=" ++ key) =
            Except.ok (Except.error e) →
        requestDefinition word key httpGet unmarshal =
          { printed := ["Error: Failed to read response body.", "Error: Failed to parse response"],
            result := FetchResult.err e })
    ∧ (∀ body e, httpGet ("https://www.dictionaryapi.com/api/v3/references/collegiate/json/" ++ word ++ "?key=" ++ key) =
            Except.ok (Except.ok body) → unmarshal body = Except.error e →
        requestDefinition word key httpGet unmarshal =
          { printed := ["Error: Failed to parse response body JSON.", "Error: Failed to parse response"],
            result := FetchResult.err e })
    ∧ ((requestDefinition word key httpGet unmarshal).result.isErr = true ↔
        ((∃ e, httpGet ("https://www.dictionaryapi.com/api/v3/references/collegiate/json/" ++ word ++ "?key=" ++ key) =
              Except.error e)
        ∨ (∃ e, httpGet ("https://www.dictionaryapi.com/api/v3/references/collegiate/json/" ++ word ++ "?key=" ++ key) =
              Except.ok (Except.error e))
        ∨ (∃ body e, httpGet ("https://www.dictionaryapi.com/api/v3/references/collegiate/json/" ++ word ++ "?key=" ++ key) =
              Except.ok (Except.ok body) ∧ unmarshal body = Except.error e)))
    ∧ ("Error: Failed to contact Merriam-Webster." ≠ "Error: Failed to read response body."
        ∧ "Error: Failed to contact Merriam-Webster." ≠ "Error: Failed to parse response body JSON."
        ∧ "Error: Failed to read response body." ≠ "Error: Failed to parse response body JSON.") := by
  refine ⟨?_, ?_, ?_, ?_, by decide⟩
  · intro e he
    simp [requestDefinition, he]
  · intro e he
    simp [requestDefinition, he, parseResponse]
  · intro body e hg hu
    simp [requestDefinition, hg, parseResponse, hu]
  · rcases hg : httpGet ("https://www.dictionaryapi.com/api/v3/references/collegiate/json/" ++ word ++ "?key=" ++ key) with e | body
    · simp [requestDefinition, hg, FetchResult.isErr]
    · rcases body with e | body
      · simp [requestDefinition, hg, parseResponse, FetchResult.isErr]
      · rcases hu : unmarshal body with e | cards
        · simp [requestDefinition, hg, parseResponse, hu, FetchResult.isErr]
        · cases cards <;> simp [requestDefinition, hg, parseResponse, hu, FetchResult.isErr]

/-- Witness for C8 at a transport failure, a body-read failure and a decode
failure. -/
theorem C8_error_exactly_on_stage_failure_witness :
    requestDefinition "run" "K" httpGetFail unmarshalRunVerb =
      { printed := ["Error: Failed to contact Merriam-Webster."],
        result := FetchResult.err "connection refused" }
    ∧ requestDefinition "run" "K" (fun _ => Except.ok (Except.error "unexpected EOF")) unmarshalRunVerb =
      { printed := ["Error: Failed to read response body.", "Error: Failed to parse response"],
        result := FetchResult.err "unexpected EOF" }
    ∧ requestDefinition "run" "K" (fun _ => Except.ok (Except.ok "not json")) unmarshalRunVerb =
      { printed := ["Error: Failed to parse response body JSON.", "Error: Failed to parse response"],
        result := FetchResult.err "invalid character" } :=
  ⟨(C8_error_exactly_on_stage_failure "run" "K" httpGetFail unmarshalRunVerb).1
      "connection refused" rfl,
   (C8_error_exactly_on_stage_failure "run" "K" (fun _ => Except.ok (Except.error "unexpected EOF"))
      unmarshalRunVerb).2.1 "unexpected EOF" rfl,
   (C8_error_exactly_on_stage_failure "run" "K" (fun _ => Except.ok (Except.ok "not json"))
      unmarshalRunVerb).2.2.1 "not json" "invalid character" rfl rfl⟩

/-- Environment of a full run of the tool on word "run": valid config, Anki
reachable, dictionary answering one verb card, duplicate search finding one
existing card, note adds succeeding. -/
def dupWorld : World :=
  { args := ["dict2anki", "run"],
    userHomeDir := Except.ok "/home/user",
    readConfigFile := fun _ => Except.ok (Except.ok (JValue.jobj
      [("apiKey", JValue.jstr "K"), ("deckName", JValue.jstr "English")])),
    pingErr := none,
    httpGet := httpGetRunVerb,
    unmarshal := unmarshalRunVerb,
    cardsGetResult := fun _ => Except.ok [{ cardId := 1 }],
    notesAddErr := fun _ => none }

/-- C5: in every run whose duplicate check succeeds and finds a duplicate,
main prints "Duplicate detected, omitting." as its last line and returns
normally with no note ever submitted; the note-add operation is reached only
on the no-duplicate answer. -/
theorem C5_duplicate_stops_without_add
    (w : World) (config : Config) (word : String) (outs : List String) (card : Card)
    (rc : ResultCardsInfo) (rcs : List ResultCardsInfo)
    (h0 : (w.args.length == 0) = false)
    (h1 : LoadConfig w.userHomeDir w.readConfigFile = Except.ok config)
    (h2 : w.pingErr = none)
    (h3 : w.args[1]? = some word)
    (h4 : requestDefinition word config.apiKey w.httpGet w.unmarshal =
            { printed := outs, result := FetchResult.ok card })
    (h5 : w.cardsGetResult ("\"deck:" ++ config.deckName ++ "\" \"front:" ++ card.word ++ "\"") =
            Except.ok (rc :: rcs)) :
    mainModel w =
      { printed := outs ++ [card.word, card.partOfSpeech, String.intercalate "\n" card.definitions]
                     ++ ["Duplicate detected, omitting."],
        queries := ["\"deck:" ++ config.deckName ++ "\" \"front:" ++ card.word ++ "\""],
        added := [],
        result := MainResult.normal } := by
  simp [mainModel, h0, h1, h2, h3, h4, checkDeckForDuplicate, CardsGet, initialClient, h5]

/-- Witness for C5 at the concrete duplicate-finding run on word "run". -/
theorem C5_duplicate_stops_without_add_witness :
    mainModel dupWorld =
      { printed := [] ++ ["run", "verb", String.intercalate "\n" ["to move fast"]]
                     ++ ["Duplicate detected, omitting."],
        queries := ["\"deck:" ++ "English" ++ "\" \"front:" ++ "run" ++ "\""],
        added := [],
        result := MainResult.normal } :=
  C5_duplicate_stops_without_add dupWorld { apiKey := "K", deckName := "English" } "run" []
    { word := "run", partOfSpeech := "verb", definitions := ["to move fast"] }
    { cardId := 1 } [] rfl rfl rfl rfl rfl rfl

/-- Environment for an invocation with only the program name in `os.Args`:
valid config, Anki reachable. -/
def noWordWorld : World :=
  { args := ["dict2anki"],
    userHomeDir := Except.ok "/home/user",
    readConfigFile := fun _ => Except.ok (Except.ok (JValue.jobj
      [("apiKey", JValue.jstr "K"), ("deckName", JValue.jstr "English")])),
    pingErr := none,
    httpGet := httpGetRunVerb,
    unmarshal := unmarshalRunVerb,
    cardsGetResult := fun _ => Except.ok [],
    notesAddErr := fun _ => none }

/-- C6: with only the program name in the argument list, the check
`len(os.Args) == 0` does not fire, so the run does not stop at argument
validation: the help text is never printed, the config loads successfully,
and the run ends in a runtime panic at the unguarded `os.Args[1]` access. -/
theorem C6_missing_word_not_caught :
    mainModel noWordWorld =
      { printed := [], queries := [], added := [],
        result := MainResult.panicked "runtime error: index out of range [1] with length 1" }
    ∧ LoadConfig noWordWorld.userHomeDir noWordWorld.readConfigFile =
        Except.ok { apiKey := "K", deckName := "English" }
    ∧ helpText ∉ (mainModel noWordWorld).printed :=
  ⟨by decide, rfl, by decide⟩

/-- Environment that drives the fetch into the empty-array panic: the
dictionary API answers with the well-formed empty JSON array. -/
def emptyArrayWorld : World :=
  { noWordWorld with
    args := ["dict2anki", "espresso"],
    httpGet := fun _ => Except.ok (Except.ok "[]"),
    unmarshal := unmarshalEmptyOnly }

/-- Counterexample to C9 as stated: a path through main exists that does not
end in an ordinary return — it panics on the empty response array — and its
process exit status differs from the success status. -/
theorem C9_panicking_path_counterexample :
    (mainModel emptyArrayWorld).result =
      MainResult.panicked "runtime error: index out of range [0] with length 0"
    ∧ exitStatus (mainModel emptyArrayWorld).result ≠ 0 :=
  ⟨by decide, by decide⟩

/-- C9 (amended): on every path on which main returns ordinarily — every
handled-error path and every success path — at least one human-readable line
has been printed, and the process exit status is the undifferentiated success
value 0; only panicking paths end otherwise. -/
theorem C9_normal_paths_print_and_exit_zero (w : World) :
    (mainModel w).result = MainResult.normal →
    ((mainModel w).printed ≠ [] ∧ exitStatus (mainModel w).result = 0) := by
  intro h
  refine ⟨?_, by simp [h, exitStatus]⟩
  revert h
  unfold mainModel
  dsimp only
  repeat' split
  all_goals intro h
  all_goals simp_all [helpText]

/-- Witness for C9 (amended) at the concrete duplicate-finding run, which
returns ordinarily. -/
theorem C9_normal_paths_print_and_exit_zero_witness :
    (mainModel dupWorld).printed ≠ [] ∧ exitStatus (mainModel dupWorld).result = 0 :=
  C9_normal_paths_print_and_exit_zero dupWorld (by decide)
